import Mathlib

/-!
Verification development for the Mali Vulkan ICD wrapper presentation core:
the X11-to-Wayland swapchain (bridge presentation path, deferred image
release, rate limiter), the Xwayland dmabuf bridge wire client, and the
external (dma-buf) memory manager.  Each definition is a shallow embedding
of the corresponding C++ function; machine integers are modelled as `Nat`
with explicit `% 2 ^ 32` where 32-bit wraparound matters.
-/

namespace MaliIcd

/-! ## Swapchain image lifecycle

The lifecycle states of a swapchain image slot.  Modelled from the spec:
the image pool state machine has states INVALID (slot not yet backed by a
real image), FREE (eligible for acquisition) and ACQUIRED (handed to the
application); `swapchain_base` which declares the status enum is not part
of the sources, only its users are. -/
inductive ImageStatus where
  | INVALID : ImageStatus
  | FREE : ImageStatus
  | ACQUIRED : ImageStatus
deriving DecidableEq, Repr

/-- State touched by the bridge-path present bookkeeping in
`wsi::x11::swapchain`: the per-slot lifecycle statuses and the
`m_bridge_pending_unpresent` deque of image indices awaiting deferred
release (front of the list is the front of the deque, i.e. the oldest). -/
structure BridgeSwapchain where
  statuses : List ImageStatus
  pending_unpresent : List Nat
deriving DecidableEq, Repr

/-- Modelled from the spec: `unpresent_image` lives in `swapchain_base`
(not among the sources); per the spec it transitions an image
`ACQUIRED -> FREE` once its completion has been confirmed. -/
def unpresent_image (s : BridgeSwapchain) (i : Nat) : BridgeSwapchain :=
  { s with statuses := s.statuses.set i ImageStatus.FREE }

/-- Modelled from the spec: acquire (in `swapchain_base`, not among the
sources) transitions a FREE image to ACQUIRED; the caller-visible choice of
which free image is acquired is modelled by passing the index, and the call
fails unless that image is FREE. -/
def acquire_image (statuses : List ImageStatus) (i : Nat) :
    Option (List ImageStatus) :=
  if h : i < statuses.length then
    if statuses.get ⟨i, h⟩ = ImageStatus.FREE then
      some (statuses.set i ImageStatus.ACQUIRED)
    else
      none
  else
    none

/-- Sequential acquisition of the listed image indices. -/
def acquire_seq (statuses : List ImageStatus) : List Nat → Option (List ImageStatus)
  | [] => some statuses
  | i :: rest =>
    match acquire_image statuses i with
    | none => none
    | some statuses2 => acquire_seq statuses2 rest

/-- The release lag used by `swapchain::present_image` on the bridge path:
`(m_swapchain_images.size() > 1) ? (m_swapchain_images.size() - 1) : 1`. -/
def release_lag_frames (image_count : Nat) : Nat :=
  if image_count > 1 then image_count - 1 else 1

/-- The `while (m_bridge_pending_unpresent.size() > release_lag_frames)`
loop of `swapchain::present_image`: pop the front (oldest) pending index
and unpresent it until at most `lag` entries remain. -/
def drain_pending (lag : Nat) : List Nat → BridgeSwapchain → List Nat × BridgeSwapchain
  | [], s => ([], s)
  | i :: rest, s =>
    if rest.length + 1 > lag then
      drain_pending lag rest (unpresent_image s i)
    else
      (i :: rest, s)

/-- The deferred-release bookkeeping performed by `swapchain::present_image`
after a successful bridge submission: push the just-presented index on the
back of `m_bridge_pending_unpresent`, then drain down to the release lag. -/
def bridge_present_success (s : BridgeSwapchain) (idx : Nat) : BridgeSwapchain :=
  let lag := release_lag_frames s.statuses.length
  let (pending, s2) := drain_pending lag (s.pending_unpresent ++ [idx]) s
  { s2 with pending_unpresent := pending }

/-! ## X11 swapchain acquire path (`free_image_found` / `get_free_buffer`) -/

/-- Result codes returned by the acquire path of the swapchain. -/
inductive VkResult where
  | SUCCESS : VkResult
  | NOT_READY : VkResult
  | TIMEOUT : VkResult
  | ERROR_OUT_OF_DATE : VkResult
deriving DecidableEq, Repr

/-- Per-swapchain state read by `swapchain::free_image_found`: image
statuses, the per-image pixmap handles (`x11_image_data::pixmap`, used by
the shared-memory path), and the `m_free_buffer_pool` queue of pixmaps
whose presents have completed. -/
structure X11Swapchain where
  statuses : List ImageStatus
  pixmaps : List Nat
  free_buffer_pool : List Nat
deriving DecidableEq, Repr

/-- The pool-draining loop of `swapchain::free_image_found`: every pixmap
popped from `m_free_buffer_pool` unpresents each image whose pixmap
matches it. -/
def drain_free_pool (pixmaps : List Nat) :
    List Nat → List ImageStatus → List ImageStatus
  | [], statuses => statuses
  | pix :: rest, statuses =>
    drain_free_pool pixmaps rest
      (List.zipWith
        (fun pm st => if pm = pix then ImageStatus.FREE else st)
        pixmaps statuses)

/-- The final scan of `swapchain::free_image_found` over the image pool. -/
def has_free_image : List ImageStatus → Bool
  | [] => false
  | ImageStatus.FREE :: _ => true
  | _ :: rest => has_free_image rest

/-- `swapchain::free_image_found`: drain the free-buffer pool, then report
whether any image is FREE. -/
def free_image_found (s : X11Swapchain) : Bool × X11Swapchain :=
  let statuses := drain_free_pool s.pixmaps s.free_buffer_pool s.statuses
  (has_free_image statuses, ⟨statuses, s.pixmaps, []⟩)

/-- The `*timeout == 0` branch of `swapchain::get_free_buffer`:
`return free_image_found() ? VK_SUCCESS : VK_NOT_READY;`.  The nonzero
branches block on the thread-status condition variable and are outside
this pure model. -/
def get_free_buffer_poll (s : X11Swapchain) : VkResult × X11Swapchain :=
  match free_image_found s with
  | (true, s2) => (VkResult.SUCCESS, s2)
  | (false, s2) => (VkResult.NOT_READY, s2)

/-! ## Bridge present rate limiter -/

/-- Pacing state of `wsi::x11::swapchain` consulted by
`throttle_bridge_present_if_needed`; times are steady-clock nanoseconds. -/
structure RateLimiterState where
  use_xwayland_bridge : Bool
  bridge_present_interval_ns : Nat
  rate_limit_initialized : Bool
  next_present_time : Nat
deriving DecidableEq, Repr

/-- How the environment override `XWL_DMABUF_BRIDGE_MAX_FPS` presented
itself to `init_bridge_present_rate_limit`: absent, set but empty, set but
rejected by `strtoul` (parse error or trailing junk), or parsed to a
value. -/
inductive FpsEnv where
  | unset : FpsEnv
  | empty : FpsEnv
  | invalid : FpsEnv
  | value : Nat → FpsEnv
deriving DecidableEq, Repr

/-- Configuration produced by `swapchain::init_bridge_present_rate_limit`. -/
structure BridgeRateConfig where
  interval_ns : Nat
  initialized : Bool
  fps_override : Bool
deriving DecidableEq, Repr

/-- `swapchain::init_bridge_present_rate_limit`: `fps` starts at 0; a
present, non-empty environment value marks an override and sets `fps` only
when it parses (clamped to 240); without an override `fps` defaults to 60;
`fps == 0` disables pacing (interval 0, limiter left uninitialized). -/
def init_bridge_present_rate_limit (env : FpsEnv) : BridgeRateConfig :=
  let has_env_override : Bool :=
    match env with
    | FpsEnv.unset => false
    | FpsEnv.empty => false
    | _ => true
  let fps : Nat :=
    match env with
    | FpsEnv.unset => 0
    | FpsEnv.empty => 0
    | FpsEnv.invalid => 0
    | FpsEnv.value parsed => if parsed > 240 then 240 else parsed
  let fps := if has_env_override then fps else 60
  if fps = 0 then
    ⟨0, false, has_env_override⟩
  else
    ⟨1000000000 / fps, true, has_env_override⟩

/-- `swapchain::throttle_bridge_present_if_needed`.  `now` is the
steady-clock reading taken before the conditional sleep and `after_wait`
the reading taken right after it; the returned option is the absolute time
`sleep_until` was pointed at, `none` when no sleep was requested. -/
def throttle_bridge_present_if_needed (s : RateLimiterState)
    (now after_wait : Nat) : RateLimiterState × Option Nat :=
  if !s.use_xwayland_bridge || s.bridge_present_interval_ns = 0 then
    (s, none)
  else if !s.rate_limit_initialized then
    ({ s with next_present_time := now, rate_limit_initialized := true }, none)
  else
    let target : Option Nat :=
      if now < s.next_present_time then some s.next_present_time else none
    ({ s with next_present_time := after_wait + s.bridge_present_interval_ns },
     target)

/-! ## Xwayland dmabuf bridge wire client

Shallow embedding of `xwayland_dmabuf_bridge_client`
(`xwayland_dmabuf_bridge.cpp`).  The socket is modelled as a Bool
(connected or not, mirroring `m_socket_fd >= 0`); what the operating
system and the peer do (connect outcome, sendmsg outcome, received
packets) is an explicit environment input. -/

def XWL_DMABUF_BRIDGE_MAGIC : Nat := 0x58444246
def XWL_DMABUF_BRIDGE_VERSION : Nat := 1
def XWL_DMABUF_BRIDGE_OP_FRAME : Nat := 1
def XWL_DMABUF_BRIDGE_OP_STOP : Nat := 2
def XWL_DMABUF_BRIDGE_OP_HELLO : Nat := 3
def XWL_DMABUF_BRIDGE_OP_FEEDBACK : Nat := 4
def XWL_DMABUF_BRIDGE_FEEDBACK_FAILED : Nat := 1
def XWL_DMABUF_BRIDGE_FEEDBACK_CAP_SYNC : Nat := 2 ^ 16
def XWL_DMABUF_BRIDGE_HELLO_FRAME_ID : Nat := 0x48454c4f
def XWL_DMABUF_BRIDGE_MAX_PLANES : Nat := 4

/-- Wire packet header fields of `xwl_dmabuf_bridge_packet` relevant to the
receive path (the per-plane payload is not inspected by the client when
receiving). -/
structure BridgePacket where
  magic : Nat
  version : Nat
  opcode : Nat
  xid : Nat
  flags : Nat
  reserved : Nat
deriving DecidableEq, Repr

/-- Connection state of `xwayland_dmabuf_bridge_client` (header fields
`m_socket_fd`, `m_connect_failed`, `m_feedback_probe_done`,
`m_feedback_sync_enabled`, `m_feedback_timeout_ms`, `m_next_frame_id`).
`enabled` mirrors `is_enabled()`, i.e. a non-empty socket path. -/
structure BridgeClient where
  enabled : Bool
  socket_fd : Bool
  connect_failed : Bool
  feedback_probe_done : Bool
  feedback_sync_enabled : Bool
  feedback_timeout_ms : Nat
  next_frame_id : Nat
deriving DecidableEq, Repr

/-- `xwayland_dmabuf_bridge_client::reset_connection`: close the socket and
clear the negotiated capability state.  `m_connect_failed` is untouched. -/
def reset_connection (c : BridgeClient) : BridgeClient :=
  { c with socket_fd := false, feedback_probe_done := false,
           feedback_sync_enabled := false }

/-- One observable outcome of an iteration of the `wait_for_feedback`
receive loop, as decided by the operating system / peer:
  - `pollTimeout`: `poll` returned 0 (overall deadline hit);
  - `pollEintr`: `poll` failed with `EINTR` (loop continues);
  - `pollErrno`: `poll` failed with another errno (connection reset);
  - `pollHup`: revents carried `POLLERR`/`POLLHUP`/`POLLNVAL` (reset);
  - `pollNoInput`: `poll` woke without `POLLIN` (loop continues);
  - `recvEintr`: `recv` failed with `EINTR`/`EAGAIN` (loop continues);
  - `recvErrno`: `recv` failed with another errno (connection reset);
  - `recvClosed`: `recv` returned 0 bytes, peer closed (reset);
  - `shortPacket`: `recv` returned a wrong byte count (packet discarded);
  - `packet p`: a full packet `p` was received.
Elapsed wall time is abstracted into the list of events: exhausting the
list stands for the deadline check at the top of the loop failing. -/
inductive RecvEvent where
  | pollTimeout : RecvEvent
  | pollEintr : RecvEvent
  | pollErrno : RecvEvent
  | pollHup : RecvEvent
  | pollNoInput : RecvEvent
  | recvEintr : RecvEvent
  | recvErrno : RecvEvent
  | recvClosed : RecvEvent
  | shortPacket : RecvEvent
  | packet : BridgePacket → RecvEvent
deriving DecidableEq, Repr

/-- Payload delivered by a successful `wait_for_feedback` (the out
parameters `feedback_flags` and `feedback_xid`). -/
structure Feedback where
  flags : Nat
  xid : Nat
deriving DecidableEq, Repr

/-- The receive loop of `xwayland_dmabuf_bridge_client::wait_for_feedback`,
consuming environment events in order.  A packet whose magic or version
mismatches, whose opcode is not FEEDBACK, or whose `reserved` field is not
the expected frame id is discarded and the loop continues. -/
def wait_for_feedback_loop (c : BridgeClient) (expected : Nat) :
    List RecvEvent → Option Feedback × BridgeClient
  | [] => (none, c)
  | RecvEvent.pollTimeout :: _ => (none, c)
  | RecvEvent.pollEintr :: rest => wait_for_feedback_loop c expected rest
  | RecvEvent.pollErrno :: _ => (none, reset_connection c)
  | RecvEvent.pollHup :: _ => (none, reset_connection c)
  | RecvEvent.pollNoInput :: rest => wait_for_feedback_loop c expected rest
  | RecvEvent.recvEintr :: rest => wait_for_feedback_loop c expected rest
  | RecvEvent.recvErrno :: _ => (none, reset_connection c)
  | RecvEvent.recvClosed :: _ => (none, reset_connection c)
  | RecvEvent.shortPacket :: rest => wait_for_feedback_loop c expected rest
  | RecvEvent.packet p :: rest =>
    if p.magic ≠ XWL_DMABUF_BRIDGE_MAGIC ∨ p.version ≠ XWL_DMABUF_BRIDGE_VERSION then
      wait_for_feedback_loop c expected rest
    else if p.opcode ≠ XWL_DMABUF_BRIDGE_OP_FEEDBACK then
      wait_for_feedback_loop c expected rest
    else if p.reserved ≠ expected then
      wait_for_feedback_loop c expected rest
    else
      (some ⟨p.flags, p.xid⟩, c)

/-- `xwayland_dmabuf_bridge_client::wait_for_feedback`: fails immediately
when the socket is not connected, otherwise runs the receive loop. -/
def wait_for_feedback (c : BridgeClient) (expected : Nat)
    (events : List RecvEvent) : Option Feedback × BridgeClient :=
  if !c.socket_fd then (none, c)
  else wait_for_feedback_loop c expected events

/-- The `sendmsg` tail of `xwayland_dmabuf_bridge_client::send_packet`,
reached when the socket is connected: a failed or short send resets the
connection and reports failure. -/
def send_packet_connected (c : BridgeClient) (send_ok : Bool) :
    Bool × BridgeClient :=
  if send_ok then (true, c) else (false, reset_connection c)

/-- `xwayland_dmabuf_bridge_client::probe_feedback_support`: once per
connection, send a HELLO (whose `reserved` is the HELLO sentinel frame id)
and wait up to 100 ms for a matching FEEDBACK; the capability bit in its
flags enables feedback sync.  When the probe sends, the socket is already
connected, so its inner `send_packet` reduces to the connected tail. -/
def probe_feedback_support (c : BridgeClient) (hello_send_ok : Bool)
    (probe_events : List RecvEvent) : Bool × BridgeClient :=
  if c.feedback_probe_done then
    (c.feedback_sync_enabled, c)
  else
    let c2 := { c with feedback_probe_done := true }
    match send_packet_connected c2 hello_send_ok with
    | (false, c3) => (false, c3)
    | (true, c3) =>
      match wait_for_feedback c3 XWL_DMABUF_BRIDGE_HELLO_FRAME_ID probe_events with
      | (none, c4) => (false, c4)
      | (some fb, c4) =>
        if Nat.land fb.flags XWL_DMABUF_BRIDGE_FEEDBACK_CAP_SYNC ≠ 0 then
          (true, { c4 with feedback_sync_enabled := true })
        else
          (false, c4)

/-- Environment input for one client call: the outcome of a `connect`
attempt were one to happen, the outcome of the HELLO probe send plus the
packets its wait would observe, the outcome of the payload `sendmsg`, and
the packets a feedback wait would observe. -/
structure PresentEnv where
  connect_ok : Bool
  hello_send_ok : Bool
  probe_events : List RecvEvent
  frame_send_ok : Bool
  feedback_events : List RecvEvent
deriving DecidableEq, Repr

/-- `xwayland_dmabuf_bridge_client::ensure_connected`: no-op when already
connected; refuses (without any connect attempt) when `m_connect_failed`
is sticky-set; a failed connect sets the sticky flag; a successful connect
clears flags and fires the capability probe, whose outcome is discarded. -/
def ensure_connected (c : BridgeClient) (env : PresentEnv) :
    Bool × BridgeClient :=
  if !c.enabled then (false, c)
  else if c.socket_fd then (true, c)
  else if c.connect_failed then (false, c)
  else if !env.connect_ok then (false, { c with connect_failed := true })
  else
    let c2 := { c with socket_fd := true, connect_failed := false,
                       feedback_probe_done := false,
                       feedback_sync_enabled := false }
    let (_, c3) := probe_feedback_support c2 env.hello_send_ok env.probe_events
    (true, c3)

/-- `xwayland_dmabuf_bridge_client::send_packet` for the payload packet:
connect lazily, then the connected `sendmsg` tail. -/
def send_packet (c : BridgeClient) (env : PresentEnv) : Bool × BridgeClient :=
  match ensure_connected c env with
  | (false, c2) => (false, c2)
  | (true, c2) => send_packet_connected c2 env.frame_send_ok

/-- The frame-id assignment in `present_frame`
(`packet.reserved = m_next_frame_id++;` followed by a second post-increment
when the drawn id is 0).  Input is the current `m_next_frame_id`; output is
the id placed in the packet and the new counter, both as `uint32_t`. -/
def assign_frame_id (id : Nat) : Nat × Nat :=
  let reserved := id
  let id2 := (id + 1) % 2 ^ 32
  if reserved = 0 then (id2, (id2 + 1) % 2 ^ 32) else (reserved, id2)

/-- The per-plane validation loop of `present_frame`: any negative plane fd
or stride rejects the request (after the frame id was already drawn). -/
def planes_invalid (num_planes : Nat) (strides plane_fds : List Int) : Bool :=
  (List.range num_planes).any
    (fun i => plane_fds.getD i (-1) < 0 || strides.getD i (-1) < 0)

/-- Observable outcome of a `present_frame` call: the Bool return value,
the frame id placed in the FRAME packet's `reserved` field (`none` when the
call was rejected before an id was drawn), and the client state after. -/
structure PresentOutcome where
  accepted : Bool
  frame_id : Option Nat
  client : BridgeClient
deriving DecidableEq, Repr

/-- `xwayland_dmabuf_bridge_client::present_frame`: reject zero or too many
planes; draw a non-zero frame id; validate planes; send the FRAME packet;
when feedback sync is negotiated, wait for the matching FEEDBACK — a
timeout permanently clears `m_feedback_sync_enabled` yet the call still
returns true, and a FEEDBACK carrying the failure flag is only logged. -/
def present_frame (c : BridgeClient) (num_planes : Nat)
    (strides plane_fds : List Int) (env : PresentEnv) : PresentOutcome :=
  if !c.enabled || num_planes = 0 || num_planes > XWL_DMABUF_BRIDGE_MAX_PLANES then
    ⟨false, none, c⟩
  else
    let (fid, next_id) := assign_frame_id c.next_frame_id
    let c2 := { c with next_frame_id := next_id }
    if planes_invalid num_planes strides plane_fds then
      ⟨false, some fid, c2⟩
    else
      match send_packet c2 env with
      | (false, c3) => ⟨false, some fid, c3⟩
      | (true, c3) =>
        if !c3.feedback_sync_enabled then
          ⟨true, some fid, c3⟩
        else
          match wait_for_feedback c3 fid env.feedback_events with
          | (none, c4) =>
            ⟨true, some fid, { c4 with feedback_sync_enabled := false }⟩
          | (some _, c4) => ⟨true, some fid, c4⟩

/-- Arguments of one `present_frame` call together with its environment,
used to run a client through a whole call sequence. -/
structure PresentCall where
  num_planes : Nat
  strides : List Int
  plane_fds : List Int
  env : PresentEnv
deriving DecidableEq, Repr

/-- Run a sequence of `present_frame` calls, collecting the Bool results. -/
def present_run (c : BridgeClient) : List PresentCall → List Bool × BridgeClient
  | [] => ([], c)
  | call :: rest =>
    let o := present_frame c call.num_planes call.strides call.plane_fds call.env
    let (results, cf) := present_run o.client rest
    (o.accepted :: results, cf)

/-! ## External memory manager: disjointness -/

def WSIALLOC_MAX_PLANES : Nat := 4

/-- The distinct-backing count in `swapchain::allocate_wsialloc`: for each
plane index `i` below `num_planes`, `std::find` scans the remainder of the
full `buffer_fds` array (`buffer_fds[i+1 .. WSIALLOC_MAX_PLANES)`); the
plane counts only when its fd does not reappear later.  The array is
presented here as the planes still to process plus the fixed suffix of the
array behind them. -/
def count_memory_planes : List Int → List Int → Nat
  | [], _ => 0
  | fd :: rest, suffix =>
    count_memory_planes rest suffix + (if fd ∈ rest ++ suffix then 0 else 1)

/-- The value `allocate_wsialloc` hands to `set_num_memories`: the count
over the first `num_planes` entries of the 4-entry `buffer_fds` array,
with the remaining entries (cleared to -1) still visible to the scan. -/
def num_memories_of (buffer_fds : List Int) (num_planes : Nat) : Nat :=
  count_memory_planes (buffer_fds.take num_planes) (buffer_fds.drop num_planes)

/-- `external_memory::is_disjoint`: `return m_num_memories != 1;`. -/
def is_disjoint (num_memories : Nat) : Bool :=
  num_memories ≠ 1

/-! ## Helper lemmas -/

theorem getD_set_self {α : Type} (l : List α) (i : Nat) (x d : α)
    (h : i < l.length) : (l.set i x).getD i d = x := by
  induction l generalizing i with
  | nil => simp at h
  | cons a t ih =>
    cases i with
    | zero => rfl
    | succ n =>
      have hn : n < t.length := by simpa using h
      simpa using ih n hn

theorem drain_pending_length_le (lag : Nat) :
    ∀ (pending : List Nat) (s : BridgeSwapchain),
      ((drain_pending lag pending s).1).length ≤ lag := by
  intro pending
  induction pending with
  | nil => intro s; simp [drain_pending]
  | cons i rest ih =>
    intro s
    rw [drain_pending]
    by_cases h : rest.length + 1 > lag
    · simpa [h] using ih (unpresent_image s i)
    · simp [h]
      omega

theorem drain_pending_single_pop (lag i : Nat) (t : List Nat)
    (s : BridgeSwapchain) (hl : t.length = lag) :
    drain_pending lag (i :: t) s = (t, unpresent_image s i) := by
  rw [drain_pending]
  have hc : t.length + 1 > lag := by omega
  simp only [hc, if_pos]
  cases t with
  | nil => simp [drain_pending]
  | cons a b =>
    rw [drain_pending]
    have hb : ¬(b.length + 1 > lag) := by
      simp only [List.length_cons] at hl
      omega
    simp [hb]

theorem count_memory_planes_eq_dedup (l junk : List Int)
    (hl : ∀ x ∈ l, 0 ≤ x) (hj : ∀ y ∈ junk, y = -1) :
    count_memory_planes l junk = l.dedup.length := by
  induction l with
  | nil => simp [count_memory_planes]
  | cons x xs ih =>
    have hx : (0 : Int) ≤ x := hl x (by simp)
    have hxs : ∀ a ∈ xs, (0 : Int) ≤ a := fun a ha => hl a (by simp [ha])
    have hmem : x ∈ xs ++ junk ↔ x ∈ xs := by
      constructor
      · intro h
        rcases List.mem_append.mp h with h1 | h2
        · exact h1
        · exfalso
          have := hj x h2
          omega
      · intro h
        exact List.mem_append.mpr (Or.inl h)
    by_cases hc : x ∈ xs
    · rw [count_memory_planes]
      simp [hmem, hc, List.dedup_cons_of_mem hc, ih hxs]
    · rw [count_memory_planes]
      simp [hmem, hc, List.dedup_cons_of_not_mem hc, ih hxs]

theorem countP_set_acquire (sts : List ImageStatus) (i : Nat)
    (h : i < sts.length) (hf : sts.get ⟨i, h⟩ = ImageStatus.FREE) :
    (sts.set i ImageStatus.ACQUIRED).countP
        (fun st => decide (st = ImageStatus.FREE)) + 1
      = sts.countP (fun st => decide (st = ImageStatus.FREE)) := by
  induction sts generalizing i with
  | nil => simp at h
  | cons a t ih =>
    cases i with
    | zero =>
      simp only [List.get] at hf
      subst hf
      simp [List.countP_cons]
    | succ n =>
      have hn : n < t.length := by simpa using h
      have hf2 : t.get ⟨n, hn⟩ = ImageStatus.FREE := by simpa using hf
      have hrec := ih n hn hf2
      by_cases ha : a = ImageStatus.FREE <;>
        simp [List.set, List.countP_cons, ha] <;> omega

theorem acquire_image_count (sts sts2 : List ImageStatus) (i : Nat)
    (h : acquire_image sts i = some sts2) :
    sts2.countP (fun st => decide (st = ImageStatus.FREE)) + 1
      = sts.countP (fun st => decide (st = ImageStatus.FREE)) := by
  unfold acquire_image at h
  split at h
  case isTrue hlt =>
    split at h
    case isTrue hfree =>
      rw [Option.some.injEq] at h
      subst h
      exact countP_set_acquire sts i hlt hfree
    case isFalse => cases h
  case isFalse => cases h

theorem acquire_seq_count (is : List Nat) :
    ∀ (sts sts2 : List ImageStatus), acquire_seq sts is = some sts2 →
      sts2.countP (fun st => decide (st = ImageStatus.FREE)) + is.length
        = sts.countP (fun st => decide (st = ImageStatus.FREE)) := by
  induction is with
  | nil =>
    intro sts sts2 h
    simp [acquire_seq] at h
    subst h
    simp
  | cons i rest ih =>
    intro sts sts2 h
    rw [acquire_seq] at h
    cases hacq : acquire_image sts i with
    | none => rw [hacq] at h; cases h
    | some mid =>
      rw [hacq] at h
      have h1 := acquire_image_count sts mid i hacq
      have h2 := ih mid sts2 h
      simp only [List.length_cons]
      omega

theorem has_free_eq_false_of_countP_zero (sts : List ImageStatus)
    (h : sts.countP (fun st => decide (st = ImageStatus.FREE)) = 0) :
    has_free_image sts = false := by
  induction sts with
  | nil => rfl
  | cons a t ih =>
    rw [List.countP_cons] at h
    by_cases ha : a = ImageStatus.FREE
    · subst ha
      simp at h
    · have ht : t.countP (fun st => decide (st = ImageStatus.FREE)) = 0 := by
        simp [ha] at h
        exact List.countP_eq_zero.mpr (fun a hat => by simp [h a hat])
      cases a with
      | FREE => exact absurd rfl ha
      | INVALID => exact ih ht
      | ACQUIRED => exact ih ht

theorem countP_free_replicate (N : Nat) :
    (List.replicate N ImageStatus.FREE).countP
        (fun st => decide (st = ImageStatus.FREE)) = N := by
  induction N with
  | zero => rfl
  | succ n ih => simp [List.replicate, List.countP_cons, ih]

theorem wait_for_feedback_loop_preserves (c : BridgeClient) (expected : Nat) :
    ∀ events : List RecvEvent,
      ((wait_for_feedback_loop c expected events).2.enabled = c.enabled) ∧
      ((wait_for_feedback_loop c expected events).2.next_frame_id
        = c.next_frame_id) := by
  intro events
  induction events with
  | nil => simp [wait_for_feedback_loop]
  | cons e rest ih =>
    cases e with
    | pollTimeout => simp [wait_for_feedback_loop]
    | pollEintr => simp only [wait_for_feedback_loop]; exact ih
    | pollErrno => simp [wait_for_feedback_loop, reset_connection]
    | pollHup => simp [wait_for_feedback_loop, reset_connection]
    | pollNoInput => simp only [wait_for_feedback_loop]; exact ih
    | recvEintr => simp only [wait_for_feedback_loop]; exact ih
    | recvErrno => simp [wait_for_feedback_loop, reset_connection]
    | recvClosed => simp [wait_for_feedback_loop, reset_connection]
    | shortPacket => simp only [wait_for_feedback_loop]; exact ih
    | packet p =>
      simp only [wait_for_feedback_loop]
      split
      · exact ih
      · split
        · exact ih
        · split
          · exact ih
          · simp

theorem wait_for_feedback_preserves (c : BridgeClient) (expected : Nat)
    (events : List RecvEvent) :
    ((wait_for_feedback c expected events).2.enabled = c.enabled) ∧
    ((wait_for_feedback c expected events).2.next_frame_id
      = c.next_frame_id) := by
  unfold wait_for_feedback
  split
  · simp
  · exact wait_for_feedback_loop_preserves c expected events

theorem send_packet_connected_preserves (c : BridgeClient) (ok : Bool) :
    ((send_packet_connected c ok).2.enabled = c.enabled) ∧
    ((send_packet_connected c ok).2.next_frame_id = c.next_frame_id) := by
  cases ok <;> simp [send_packet_connected, reset_connection]

theorem probe_feedback_support_preserves (c : BridgeClient) (ok : Bool)
    (events : List RecvEvent) :
    ((probe_feedback_support c ok events).2.enabled = c.enabled) ∧
    ((probe_feedback_support c ok events).2.next_frame_id
      = c.next_frame_id) := by
  simp only [probe_feedback_support]
  split
  · simp
  · cases hs : send_packet_connected
        { c with feedback_probe_done := true } ok with
    | mk sent c3 =>
      have hsp := send_packet_connected_preserves
        { c with feedback_probe_done := true } ok
      rw [hs] at hsp
      have hs1 : c3.enabled = c.enabled := by simpa using hsp.1
      have hs2 : c3.next_frame_id = c.next_frame_id := by simpa using hsp.2
      cases sent with
      | false => simpa [hs] using ⟨hs1, hs2⟩
      | true =>
        cases hw : wait_for_feedback c3 XWL_DMABUF_BRIDGE_HELLO_FRAME_ID
            events with
        | mk res c4 =>
          have hwp := wait_for_feedback_preserves c3
            XWL_DMABUF_BRIDGE_HELLO_FRAME_ID events
          rw [hw] at hwp
          have hw1 : c4.enabled = c3.enabled := by simpa using hwp.1
          have hw2 : c4.next_frame_id = c3.next_frame_id := by
            simpa using hwp.2
          cases res with
          | none =>
            exact ⟨by simp [hs, hw, hw1, hs1], by simp [hs, hw, hw2, hs2]⟩
          | some fb =>
            simp only [hs, hw]
            split
            · exact ⟨by simp [hw1, hs1], by simp [hw2, hs2]⟩
            · exact ⟨by simp [hw1, hs1], by simp [hw2, hs2]⟩

theorem ensure_connected_preserves (c : BridgeClient) (env : PresentEnv) :
    ((ensure_connected c env).2.enabled = c.enabled) ∧
    ((ensure_connected c env).2.next_frame_id = c.next_frame_id) := by
  simp only [ensure_connected]
  split
  · simp
  · split
    · simp
    · split
      · simp
      · split
        · simp
        · cases hp : probe_feedback_support
              { c with socket_fd := true, connect_failed := false,
                       feedback_probe_done := false,
                       feedback_sync_enabled := false }
              env.hello_send_ok env.probe_events with
          | mk r c3 =>
            have hpp := probe_feedback_support_preserves
              { c with socket_fd := true, connect_failed := false,
                       feedback_probe_done := false,
                       feedback_sync_enabled := false }
              env.hello_send_ok env.probe_events
            rw [hp] at hpp
            have hp1 : c3.enabled = c.enabled := by simpa using hpp.1
            have hp2 : c3.next_frame_id = c.next_frame_id := by
              simpa using hpp.2
            exact ⟨hp1, hp2⟩

theorem send_packet_preserves (c : BridgeClient) (env : PresentEnv) :
    ((send_packet c env).2.enabled = c.enabled) ∧
    ((send_packet c env).2.next_frame_id = c.next_frame_id) := by
  simp only [send_packet]
  cases he : ensure_connected c env with
  | mk ok c2 =>
    have hep := ensure_connected_preserves c env
    rw [he] at hep
    have he1 : c2.enabled = c.enabled := by simpa using hep.1
    have he2 : c2.next_frame_id = c.next_frame_id := by simpa using hep.2
    cases ok with
    | false => exact ⟨by simp [he, he1], by simp [he, he2]⟩
    | true =>
      have hsp := send_packet_connected_preserves c2 env.frame_send_ok
      have hc1 : (send_packet_connected c2 env.frame_send_ok).2.enabled
          = c.enabled := by rw [hsp.1, he1]
      have hc2 : (send_packet_connected c2 env.frame_send_ok).2.next_frame_id
          = c.next_frame_id := by rw [hsp.2, he2]
      exact ⟨by simp [he, hc1], by simp [he, hc2]⟩

theorem present_frame_assigns (c : BridgeClient) (np : Nat)
    (st fd : List Int) (env : PresentEnv) (he : c.enabled = true)
    (h1 : 1 ≤ np) (h4 : np ≤ XWL_DMABUF_BRIDGE_MAX_PLANES) :
    (present_frame c np st fd env).frame_id
        = some (assign_frame_id c.next_frame_id).1 ∧
    (present_frame c np st fd env).client.next_frame_id
        = (assign_frame_id c.next_frame_id).2 ∧
    (present_frame c np st fd env).client.enabled = true := by
  have hg : (!c.enabled || np = 0 || np > XWL_DMABUF_BRIDGE_MAX_PLANES)
      = false := by
    have hne : ¬(np = 0) := by omega
    have hgt : ¬(np > XWL_DMABUF_BRIDGE_MAX_PLANES) := by omega
    simp [he, hne, hgt]
  simp only [present_frame, hg, Bool.false_eq_true, if_false]
  cases hA : assign_frame_id c.next_frame_id with
  | mk fid nid =>
    simp only [hA]
    split
    · exact ⟨rfl, rfl, he⟩
    · cases hs : send_packet { c with next_frame_id := nid } env with
      | mk sent c3 =>
        have hsp := send_packet_preserves { c with next_frame_id := nid } env
        rw [hs] at hsp
        have hs1 : c3.enabled = true := by
          have := hsp.1
          simp at this
          rw [this, he]
        have hs2 : c3.next_frame_id = nid := by simpa using hsp.2
        cases sent with
        | false => exact ⟨by simp [hs], by simpa [hs] using hs2,
                          by simpa [hs] using hs1⟩
        | true =>
          simp only [hs]
          split
          · exact ⟨rfl, hs2, hs1⟩
          · cases hw : wait_for_feedback c3 fid env.feedback_events with
            | mk res c4 =>
              have hwp := wait_for_feedback_preserves c3 fid
                env.feedback_events
              rw [hw] at hwp
              have hw1 : c4.enabled = c3.enabled := by simpa using hwp.1
              have hw2 : c4.next_frame_id = c3.next_frame_id := by
                simpa using hwp.2
              cases res with
              | none =>
                refine ⟨by simp [hw], ?_, ?_⟩
                · simp [hw, hw2, hs2]
                · simp [hw, hw1, hs1]
              | some fb =>
                exact ⟨by simp [hw], by simp [hw, hw2, hs2],
                       by simp [hw, hw1, hs1]⟩

theorem assign_frame_id_spec (id : Nat) (h : id < 2 ^ 32) :
    (assign_frame_id id).1 ≠ 0 ∧
    (assign_frame_id (assign_frame_id id).2).1 ≠ 0 ∧
    (assign_frame_id id).1 ≠ (assign_frame_id (assign_frame_id id).2).1 ∧
    (assign_frame_id id).2 < 2 ^ 32 ∧
    (assign_frame_id (assign_frame_id id).2).2 < 2 ^ 32 := by
  simp only [assign_frame_id]
  split_ifs <;> simp_all <;> omega

/-! ## Claim theorems -/

/-- C1: on the bridge path with K swapchain images (K >= 2), after every
successful present the deferred-release queue holds at most K-1 image
indices, and when a successful present would make it hold K pending images
(the queue already held K-1) the oldest one is popped and unpresented to
FREE. -/
theorem bridge_release_lag_invariant (s : BridgeSwapchain) (idx K : Nat)
    (hK : s.statuses.length = K) (h2 : 2 ≤ K) :
    ((bridge_present_success s idx).pending_unpresent.length ≤ K - 1) ∧
    (s.pending_unpresent.length = K - 1 →
      (bridge_present_success s idx).pending_unpresent
          = s.pending_unpresent.tail ++ [idx] ∧
      (s.pending_unpresent.headD 0 < K →
        (bridge_present_success s idx).statuses.getD
            (s.pending_unpresent.headD 0) ImageStatus.INVALID
          = ImageStatus.FREE)) := by
  have hlag : release_lag_frames s.statuses.length = K - 1 := by
    rw [hK]
    unfold release_lag_frames
    have : K > 1 := by omega
    simp [this]
  constructor
  · unfold bridge_present_success
    rw [hlag]
    exact drain_pending_length_le (K - 1) (s.pending_unpresent ++ [idx]) s
  · intro hfull
    cases hp : s.pending_unpresent with
    | nil =>
      rw [hp] at hfull
      simp at hfull
      omega
    | cons h t =>
      have hlen : (t ++ [idx]).length = K - 1 := by
        have := hfull
        rw [hp] at this
        simp at this ⊢
        omega
      have hdrain :
          drain_pending (K - 1) (h :: (t ++ [idx])) s
            = (t ++ [idx], unpresent_image s h) :=
        drain_pending_single_pop (K - 1) h (t ++ [idx]) s hlen
      have hres : bridge_present_success s idx
          = { statuses := (unpresent_image s h).statuses,
              pending_unpresent := t ++ [idx] } := by
        simp only [bridge_present_success]
        rw [hlag, hp]
        simp only [List.cons_append]
        rw [hdrain]
      constructor
      · rw [hres]
        simp
      · intro hlt
        simp only [List.headD_cons] at hlt
        rw [hres]
        simp only [List.headD_cons, unpresent_image]
        exact getD_set_self s.statuses h ImageStatus.FREE ImageStatus.INVALID
          (by omega)

/-- C1 witness: a 3-image swapchain whose queue already holds two pending
indices releases the oldest on the next successful present. -/
theorem bridge_release_lag_invariant_witness :
    ((bridge_present_success
        ⟨[ImageStatus.ACQUIRED, ImageStatus.ACQUIRED, ImageStatus.ACQUIRED],
         [0, 1]⟩ 2).pending_unpresent.length ≤ 2) ∧
    (([0, 1] : List Nat).length = 2 →
      (bridge_present_success
          ⟨[ImageStatus.ACQUIRED, ImageStatus.ACQUIRED, ImageStatus.ACQUIRED],
           [0, 1]⟩ 2).pending_unpresent = ([0, 1] : List Nat).tail ++ [2] ∧
      (([0, 1] : List Nat).headD 0 < 3 →
        (bridge_present_success
            ⟨[ImageStatus.ACQUIRED, ImageStatus.ACQUIRED, ImageStatus.ACQUIRED],
             [0, 1]⟩ 2).statuses.getD (([0, 1] : List Nat).headD 0)
            ImageStatus.INVALID = ImageStatus.FREE)) :=
  bridge_release_lag_invariant
    ⟨[ImageStatus.ACQUIRED, ImageStatus.ACQUIRED, ImageStatus.ACQUIRED],
     [0, 1]⟩ 2 3 (by decide) (by decide)

/-- C2 counterexample: in the spec scenario (3 images, bridge mode, release
lag 2; acquire 0, acquire 1, present 0, present 1) image 0 is still
ACQUIRED after presenting image 1 — it is not released to FREE as the
claim states, because the deferred queue [0, 1] has not exceeded the lag
of 2. -/
theorem bridge_scenario_second_present_counterexample :
    acquire_image
        [ImageStatus.FREE, ImageStatus.FREE, ImageStatus.FREE] 0
      = some [ImageStatus.ACQUIRED, ImageStatus.FREE, ImageStatus.FREE] ∧
    acquire_image
        [ImageStatus.ACQUIRED, ImageStatus.FREE, ImageStatus.FREE] 1
      = some [ImageStatus.ACQUIRED, ImageStatus.ACQUIRED, ImageStatus.FREE] ∧
    bridge_present_success
        ⟨[ImageStatus.ACQUIRED, ImageStatus.ACQUIRED, ImageStatus.FREE], []⟩ 0
      = ⟨[ImageStatus.ACQUIRED, ImageStatus.ACQUIRED, ImageStatus.FREE], [0]⟩ ∧
    (bridge_present_success
        ⟨[ImageStatus.ACQUIRED, ImageStatus.ACQUIRED, ImageStatus.FREE], [0]⟩ 1)
      = ⟨[ImageStatus.ACQUIRED, ImageStatus.ACQUIRED, ImageStatus.FREE], [0, 1]⟩ ∧
    (bridge_present_success
        ⟨[ImageStatus.ACQUIRED, ImageStatus.ACQUIRED, ImageStatus.FREE], [0]⟩ 1).statuses.getD
        0 ImageStatus.INVALID = ImageStatus.ACQUIRED ∧
    ImageStatus.ACQUIRED ≠ ImageStatus.FREE := by
  decide

/-- C2 amended: with 3 images in bridge mode (release lag = 2), after
acquiring images 0 and 1 and presenting image 0, image 0 remains ACQUIRED
(deferred); after presenting image 1 it still remains ACQUIRED with
deferred queue [0, 1]; only the next (third) successful present — image 2
here — releases image 0 to FREE, leaving queue [1, 2]. -/
theorem bridge_scenario_third_present_releases :
    acquire_image
        [ImageStatus.FREE, ImageStatus.FREE, ImageStatus.FREE] 0
      = some [ImageStatus.ACQUIRED, ImageStatus.FREE, ImageStatus.FREE] ∧
    acquire_image
        [ImageStatus.ACQUIRED, ImageStatus.FREE, ImageStatus.FREE] 1
      = some [ImageStatus.ACQUIRED, ImageStatus.ACQUIRED, ImageStatus.FREE] ∧
    bridge_present_success
        ⟨[ImageStatus.ACQUIRED, ImageStatus.ACQUIRED, ImageStatus.FREE], []⟩ 0
      = ⟨[ImageStatus.ACQUIRED, ImageStatus.ACQUIRED, ImageStatus.FREE], [0]⟩ ∧
    bridge_present_success
        ⟨[ImageStatus.ACQUIRED, ImageStatus.ACQUIRED, ImageStatus.FREE], [0]⟩ 1
      = ⟨[ImageStatus.ACQUIRED, ImageStatus.ACQUIRED, ImageStatus.FREE], [0, 1]⟩ ∧
    acquire_image
        [ImageStatus.ACQUIRED, ImageStatus.ACQUIRED, ImageStatus.FREE] 2
      = some [ImageStatus.ACQUIRED, ImageStatus.ACQUIRED, ImageStatus.ACQUIRED] ∧
    bridge_present_success
        ⟨[ImageStatus.ACQUIRED, ImageStatus.ACQUIRED, ImageStatus.ACQUIRED],
         [0, 1]⟩ 2
      = ⟨[ImageStatus.FREE, ImageStatus.ACQUIRED, ImageStatus.ACQUIRED],
         [1, 2]⟩ := by
  decide

/-- C5: with bridge pacing enabled (interval > 0) and initialized, a call
to the rate limiter requests a sleep exactly when the current time is
before the stored next-allowed-present time, sleeps only until that stored
deadline, and then sets the next-allowed time to the post-sleep timestamp
plus one fixed interval — computed from the actual wake time, so overshoot
does not accumulate. -/
theorem bridge_rate_limiter_no_drift (s : RateLimiterState)
    (now after_wait : Nat)
    (hb : s.use_xwayland_bridge = true)
    (hi : s.bridge_present_interval_ns ≠ 0)
    (hinit : s.rate_limit_initialized = true) :
    (throttle_bridge_present_if_needed s now after_wait).2
      = (if now < s.next_present_time then some s.next_present_time else none) ∧
    (throttle_bridge_present_if_needed s now after_wait).1
      = { s with next_present_time
                   := after_wait + s.bridge_present_interval_ns } := by
  unfold throttle_bridge_present_if_needed
  simp [hb, hi, hinit]

/-- C5 witness: interval 100 ns, deadline 50, call at time 10 waking at
55: the limiter sleeps until 50 and schedules the next present at 155. -/
theorem bridge_rate_limiter_no_drift_witness :
    (throttle_bridge_present_if_needed ⟨true, 100, true, 50⟩ 10 55).2
      = (if 10 < (50 : Nat) then some (50 : Nat) else none) ∧
    (throttle_bridge_present_if_needed ⟨true, 100, true, 50⟩ 10 55).1
      = ⟨true, 100, true, 55 + 100⟩ :=
  bridge_rate_limiter_no_drift ⟨true, 100, true, 50⟩ 10 55 rfl
    (by decide) rfl

/-- C7: disjointness in the external memory manager.  Plane fds
[5, 5, 6, 6] over 4 planes give 2 distinct backing memories and
`is_disjoint() = true`; [5, 5, 5, 5] give 1 and `false`; and in general,
for valid plane fds (nonnegative) with the unused tail of the fd array
cleared to -1, `is_disjoint()` holds exactly when the number of distinct
backing allocations exceeds 1. -/
theorem disjoint_iff_multiple_memories :
    num_memories_of [5, 5, 6, 6] 4 = 2 ∧
    is_disjoint (num_memories_of [5, 5, 6, 6] 4) = true ∧
    num_memories_of [5, 5, 5, 5] 4 = 1 ∧
    is_disjoint (num_memories_of [5, 5, 5, 5] 4) = false ∧
    ∀ (fds : List Int) (n : Nat), 1 ≤ n → n ≤ fds.length →
      (∀ x ∈ fds.take n, 0 ≤ x) → (∀ y ∈ fds.drop n, y = -1) →
      (is_disjoint (num_memories_of fds n) = true
        ↔ 1 < (fds.take n).dedup.length) := by
  refine ⟨by decide, by decide, by decide, by decide, ?_⟩
  intro fds n hn hlen hpos hjunk
  have hcount : num_memories_of fds n = (fds.take n).dedup.length :=
    count_memory_planes_eq_dedup (fds.take n) (fds.drop n) hpos hjunk
  have htake : (fds.take n) ≠ [] := by
    have hlt : 0 < (fds.take n).length := by
      rw [List.length_take]
      omega
    exact List.length_pos.mp hlt
  have hpos1 : 1 ≤ (fds.take n).dedup.length := by
    have hne : (fds.take n).dedup ≠ [] := by
      intro hcontra
      exact htake ((List.dedup_eq_nil _).mp hcontra)
    have := List.length_pos.mpr hne
    omega
  rw [hcount]
  unfold is_disjoint
  simp only [ne_eq, decide_eq_true_eq]
  omega

/-- C7 witness: the general equivalence applied to the concrete fd array
[5, 5, 6, 6] with all 4 planes in use. -/
theorem disjoint_iff_multiple_memories_witness :
    is_disjoint (num_memories_of [5, 5, 6, 6] 4) = true
      ↔ 1 < (([5, 5, 6, 6] : List Int).take 4).dedup.length :=
  disjoint_iff_multiple_memories.2.2.2.2 [5, 5, 6, 6] 4 (by decide)
    (by decide) (by decide) (by decide)

/-- C10: a non-empty but unparsable XWL_DMABUF_BRIDGE_MAX_FPS value leaves
`fps` at 0 while marking an override, so bridge timer pacing is disabled
entirely (interval 0, limiter uninitialized) instead of falling back to
the default 60 FPS cap the unset case gets — and with interval 0 the
throttle never sleeps and never changes state. -/
theorem invalid_fps_env_disables_pacing :
    init_bridge_present_rate_limit FpsEnv.invalid
      = ⟨0, false, true⟩ ∧
    init_bridge_present_rate_limit FpsEnv.unset
      = ⟨1000000000 / 60, true, false⟩ ∧
    ∀ (b init : Bool) (next now after_wait : Nat),
      throttle_bridge_present_if_needed ⟨b, 0, init, next⟩ now after_wait
        = (⟨b, 0, init, next⟩, none) := by
  refine ⟨by decide, by decide, ?_⟩
  intro b init next now after_wait
  unfold throttle_bridge_present_if_needed
  simp

/-- C8: a zero-timeout acquire never blocks (the poll branch is a pure
function of swapchain state) and, with no completed presents queued in the
free-buffer pool, reports NOT_READY — distinct from SUCCESS — exactly when
no swapchain image is FREE; in particular, for every N, after N successful
acquires from an all-FREE N-image pool a further zero-timeout acquire
reports NOT_READY. -/
theorem zero_timeout_acquire_not_ready :
    (∀ (sts : List ImageStatus) (pm : List Nat),
      ((get_free_buffer_poll ⟨sts, pm, []⟩).1 = VkResult.NOT_READY
          ↔ has_free_image sts = false)
        ∧ (get_free_buffer_poll ⟨sts, pm, []⟩).2 = ⟨sts, pm, []⟩) ∧
    VkResult.NOT_READY ≠ VkResult.SUCCESS ∧
    ∀ (N : Nat) (is : List Nat) (sts2 : List ImageStatus) (pm : List Nat),
      is.length = N →
      acquire_seq (List.replicate N ImageStatus.FREE) is = some sts2 →
      (get_free_buffer_poll ⟨sts2, pm, []⟩).1 = VkResult.NOT_READY := by
  refine ⟨?_, by decide, ?_⟩
  · intro sts pm
    have hcompute : get_free_buffer_poll ⟨sts, pm, []⟩
        = (if has_free_image sts then VkResult.SUCCESS else VkResult.NOT_READY,
           ⟨sts, pm, []⟩) := by
      unfold get_free_buffer_poll free_image_found drain_free_pool
      cases hb : has_free_image sts <;> simp [hb]
    rw [hcompute]
    cases hb : has_free_image sts <;> simp [hb]
  · intro N is sts2 pm hlen hacq
    have hcnt := acquire_seq_count is (List.replicate N ImageStatus.FREE) sts2 hacq
    rw [countP_free_replicate, hlen] at hcnt
    have hzero : sts2.countP (fun st => decide (st = ImageStatus.FREE)) = 0 := by
      omega
    have hfree := has_free_eq_false_of_countP_zero sts2 hzero
    unfold get_free_buffer_poll free_image_found drain_free_pool
    simp [hfree]

/-- C8 witness: a 2-image pool, both images acquired ([0] then [1]), empty
free-buffer pool: the next zero-timeout acquire reports NOT_READY. -/
theorem zero_timeout_acquire_not_ready_witness :
    (get_free_buffer_poll
        ⟨[ImageStatus.ACQUIRED, ImageStatus.ACQUIRED], [10, 11], []⟩).1
      = VkResult.NOT_READY :=
  zero_timeout_acquire_not_ready.2.2 2 [0, 1]
    [ImageStatus.ACQUIRED, ImageStatus.ACQUIRED] [10, 11] (by decide)
    (by decide)

/-- C3: two consecutive `present_frame` calls on one client that both get
past the plane-count guard assign distinct frame ids, neither id is 0, and
the uint32 counter invariant is preserved — the counter wraps, skipping
zero. -/
theorem frame_ids_distinct_nonzero (c : BridgeClient)
    (np1 np2 : Nat) (st1 fd1 st2 fd2 : List Int) (env1 env2 : PresentEnv)
    (hinv : c.next_frame_id < 2 ^ 32) (he : c.enabled = true)
    (h1a : 1 ≤ np1) (h1b : np1 ≤ XWL_DMABUF_BRIDGE_MAX_PLANES)
    (h2a : 1 ≤ np2) (h2b : np2 ≤ XWL_DMABUF_BRIDGE_MAX_PLANES) :
    ∃ r1 r2 : Nat,
      (present_frame c np1 st1 fd1 env1).frame_id = some r1 ∧
      (present_frame (present_frame c np1 st1 fd1 env1).client
          np2 st2 fd2 env2).frame_id = some r2 ∧
      r1 ≠ 0 ∧ r2 ≠ 0 ∧ r1 ≠ r2 ∧
      (present_frame (present_frame c np1 st1 fd1 env1).client
          np2 st2 fd2 env2).client.next_frame_id < 2 ^ 32 := by
  obtain ⟨ha1, ha2, ha3⟩ := present_frame_assigns c np1 st1 fd1 env1 he h1a h1b
  obtain ⟨hb1, hb2, hb3⟩ := present_frame_assigns
    (present_frame c np1 st1 fd1 env1).client np2 st2 fd2 env2 ha3 h2a h2b
  obtain ⟨hz1, hz2, hz3, hz4, hz5⟩ := assign_frame_id_spec c.next_frame_id hinv
  refine ⟨(assign_frame_id c.next_frame_id).1,
          (assign_frame_id (assign_frame_id c.next_frame_id).2).1,
          ha1, ?_, hz1, hz2, hz3, ?_⟩
  · rw [hb1, ha2]
  · rw [hb2, ha2]
    exact hz5

/-- C3 witness: a fresh enabled client (counter at 1) assigns distinct
non-zero ids to two consecutive single-plane presents. -/
theorem frame_ids_distinct_nonzero_witness :
    ∃ r1 r2 : Nat,
      (present_frame ⟨true, true, false, true, false, 250, 1⟩ 1 [256] [7]
          ⟨true, true, [], true, []⟩).frame_id = some r1 ∧
      (present_frame
          (present_frame ⟨true, true, false, true, false, 250, 1⟩ 1 [256] [7]
            ⟨true, true, [], true, []⟩).client 1 [256] [7]
          ⟨true, true, [], true, []⟩).frame_id = some r2 ∧
      r1 ≠ 0 ∧ r2 ≠ 0 ∧ r1 ≠ r2 ∧
      (present_frame
          (present_frame ⟨true, true, false, true, false, 250, 1⟩ 1 [256] [7]
            ⟨true, true, [], true, []⟩).client 1 [256] [7]
          ⟨true, true, [], true, []⟩).client.next_frame_id < 2 ^ 32 :=
  frame_ids_distinct_nonzero ⟨true, true, false, true, false, 250, 1⟩ 1 1
    [256] [7] [256] [7] ⟨true, true, [], true, []⟩ ⟨true, true, [], true, []⟩
    (by decide) rfl (by decide) (by decide) (by decide) (by decide)

/-- C6: while waiting for feedback on a connected socket, a received
packet whose magic or version mismatches the protocol constants, whose
opcode is not FEEDBACK, or whose reserved field differs from the expected
frame id is discarded and the wait continues exactly as if the packet had
not arrived — in particular it neither resets the connection nor makes the
wait return failure. -/
theorem malformed_packet_discarded (c : BridgeClient) (expected : Nat)
    (p : BridgePacket) (rest : List RecvEvent) (hfd : c.socket_fd = true)
    (hbad : p.magic ≠ XWL_DMABUF_BRIDGE_MAGIC
        ∨ p.version ≠ XWL_DMABUF_BRIDGE_VERSION
        ∨ p.opcode ≠ XWL_DMABUF_BRIDGE_OP_FEEDBACK
        ∨ p.reserved ≠ expected) :
    wait_for_feedback c expected (RecvEvent.packet p :: rest)
      = wait_for_feedback c expected rest := by
  unfold wait_for_feedback
  simp only [hfd, Bool.not_true, Bool.false_eq_true, if_false]
  rw [wait_for_feedback_loop]
  by_cases h1 : p.magic ≠ XWL_DMABUF_BRIDGE_MAGIC
      ∨ p.version ≠ XWL_DMABUF_BRIDGE_VERSION
  · rw [if_pos h1]
  · rw [if_neg h1]
    by_cases h2 : p.opcode ≠ XWL_DMABUF_BRIDGE_OP_FEEDBACK
    · rw [if_pos h2]
    · rw [if_neg h2]
      have h3 : p.reserved ≠ expected := by
        rcases hbad with h | h | h | h
        · exact absurd (Or.inl h) h1
        · exact absurd (Or.inr h) h1
        · exact absurd h h2
        · exact h
      rw [if_pos h3]

/-- C6 witness: a wrong-magic packet ahead of the matching FEEDBACK packet
leaves the wait behaving as if only the matching packet had arrived (the
wait still succeeds, connection untouched). -/
theorem malformed_packet_discarded_witness :
    wait_for_feedback ⟨true, true, false, true, true, 250, 5⟩ 7
        (RecvEvent.packet ⟨0xdead, 1, 4, 0, 0, 7⟩
          :: [RecvEvent.packet ⟨XWL_DMABUF_BRIDGE_MAGIC, 1, 4, 9, 0, 7⟩])
      = wait_for_feedback ⟨true, true, false, true, true, 250, 5⟩ 7
          [RecvEvent.packet ⟨XWL_DMABUF_BRIDGE_MAGIC, 1, 4, 9, 0, 7⟩] :=
  malformed_packet_discarded ⟨true, true, false, true, true, 250, 5⟩ 7
    ⟨0xdead, 1, 4, 0, 0, 7⟩
    [RecvEvent.packet ⟨XWL_DMABUF_BRIDGE_MAGIC, 1, 4, 9, 0, 7⟩] rfl
    (by decide)

theorem send_packet_with_connect_failed (c : BridgeClient) (env : PresentEnv)
    (hcf : c.connect_failed = true) (hfd : c.socket_fd = false) :
    send_packet c env = (false, c) := by
  simp only [send_packet, ensure_connected]
  by_cases he : c.enabled = true
  · simp [he, hfd, hcf]
  · have he2 : c.enabled = false := by
      cases h : c.enabled
      · rfl
      · exact absurd h he
    simp [he2]

theorem present_frame_connect_failed_step (c : BridgeClient) (np : Nat)
    (st fd : List Int) (env : PresentEnv)
    (hcf : c.connect_failed = true) (hfd : c.socket_fd = false) :
    (present_frame c np st fd env).accepted = false ∧
    (present_frame c np st fd env).client.connect_failed = true ∧
    (present_frame c np st fd env).client.socket_fd = false := by
  simp only [present_frame]
  split
  · exact ⟨rfl, hcf, hfd⟩
  · cases hA : assign_frame_id c.next_frame_id with
    | mk fid nid =>
      simp only [hA]
      split
      · exact ⟨rfl, hcf, hfd⟩
      · have hsend := send_packet_with_connect_failed
          { c with next_frame_id := nid } env hcf hfd
        rw [hsend]
        exact ⟨rfl, hcf, hfd⟩

theorem present_run_sticky (calls : List PresentCall) :
    ∀ c : BridgeClient, c.connect_failed = true → c.socket_fd = false →
      (present_run c calls).2.connect_failed = true ∧
      (present_run c calls).2.socket_fd = false ∧
      ∀ b ∈ (present_run c calls).1, b = false := by
  induction calls with
  | nil =>
    intro c hcf hfd
    exact ⟨hcf, hfd, by simp [present_run]⟩
  | cons call rest ih =>
    intro c hcf hfd
    obtain ⟨hacc, hcf2, hfd2⟩ := present_frame_connect_failed_step c
      call.num_planes call.strides call.plane_fds call.env hcf hfd
    obtain ⟨ih1, ih2, ih3⟩ := ih
      (present_frame c call.num_planes call.strides call.plane_fds
        call.env).client hcf2 hfd2
    simp only [present_run]
    cases hr : present_run
        (present_frame c call.num_planes call.strides call.plane_fds
          call.env).client rest with
    | mk results cf =>
      rw [hr] at ih1 ih2 ih3
      refine ⟨by simpa using ih1, by simpa using ih2, ?_⟩
      intro b hb
      simp only [hr] at hb
      simp at hb
      rcases hb with hb | hb
      · rw [hb, hacc]
      · exact ih3 b hb

/-- C9: for every bridge client instance, a failed connection attempt sets
the sticky `connect_failed` flag; once set (with the socket closed) every
later `ensure_connected` refuses without consulting the environment (no
new connect attempt), and over any sequence of `present_frame` calls the
flag stays set, the socket stays closed, and every call returns false — a
fresh client instance is required to retry. -/
theorem connect_failure_is_sticky :
    (∀ (c : BridgeClient) (env : PresentEnv),
      c.enabled = true → c.socket_fd = false → c.connect_failed = false →
      env.connect_ok = false →
      ensure_connected c env = (false, { c with connect_failed := true })) ∧
    (∀ (c : BridgeClient) (env : PresentEnv),
      c.connect_failed = true → c.socket_fd = false →
      ensure_connected c env = (false, c)) ∧
    (∀ (c : BridgeClient) (calls : List PresentCall),
      c.connect_failed = true → c.socket_fd = false →
      (present_run c calls).2.connect_failed = true ∧
      (present_run c calls).2.socket_fd = false ∧
      ∀ b ∈ (present_run c calls).1, b = false) := by
  refine ⟨?_, ?_, ?_⟩
  · intro c env he hfd hcf hco
    simp [ensure_connected, he, hfd, hcf, hco]
  · intro c env hcf hfd
    simp only [ensure_connected]
    by_cases he : c.enabled = true
    · simp [he, hfd, hcf]
    · have he2 : c.enabled = false := by
        cases h : c.enabled
        · rfl
        · exact absurd h he
      simp [he2]
  · intro c calls hcf hfd
    exact present_run_sticky calls c hcf hfd

/-- C9 witness: an enabled client whose connect attempt failed
(`connect_failed` set, socket closed) refuses a later `ensure_connected`
even in an environment where connecting would succeed. -/
theorem connect_failure_is_sticky_witness :
    ensure_connected ⟨true, false, true, false, false, 250, 1⟩
        ⟨true, true, [], true, []⟩
      = (false, ⟨true, false, true, false, false, 250, 1⟩) :=
  connect_failure_is_sticky.2.1 ⟨true, false, true, false, false, 250, 1⟩
    ⟨true, true, [], true, []⟩ rfl rfl

/-- C4 counterexample: a feedback timeout does not disable feedback sync
for the remainder of the client's life.  Call 1 (send ok, no FEEDBACK
before the deadline) returns true and disables sync; call 2 fails its send,
resetting the connection (the sticky connect flag is untouched); call 3
reconnects, the fresh connection's HELLO probe receives a FEEDBACK with
the capability bit, and feedback sync is enabled again — on the same
client instance. -/
theorem feedback_disable_not_lifetime_counterexample :
    ((present_frame ⟨true, true, false, true, true, 250, 5⟩ 1 [256] [7]
        ⟨true, true, [], true, []⟩).accepted = true) ∧
    ((present_frame ⟨true, true, false, true, true, 250, 5⟩ 1 [256] [7]
        ⟨true, true, [], true, []⟩).client.feedback_sync_enabled = false) ∧
    ((present_frame
        (present_frame
          (present_frame ⟨true, true, false, true, true, 250, 5⟩ 1 [256] [7]
            ⟨true, true, [], true, []⟩).client 1 [256] [7]
          ⟨true, true, [], false, []⟩).client 1 [256] [7]
        ⟨true, true,
         [RecvEvent.packet ⟨XWL_DMABUF_BRIDGE_MAGIC, 1, 4, 0,
            XWL_DMABUF_BRIDGE_FEEDBACK_CAP_SYNC,
            XWL_DMABUF_BRIDGE_HELLO_FRAME_ID⟩], true,
         [RecvEvent.packet ⟨XWL_DMABUF_BRIDGE_MAGIC, 1, 4, 0, 0, 7⟩]⟩
       ).client.feedback_sync_enabled = true) := by
  decide

/-- C4 amended: if the FRAME send succeeds and feedback sync was
negotiated, then (a) when no matching FEEDBACK arrives before the deadline
the call still returns true (accepted) while feedback sync is disabled in
the resulting client; (b) a FEEDBACK reply carrying the failure flag does
not make the call return false; and (c) on a connected client with
feedback sync disabled, no present_frame re-enables it — the disable lasts
for the remainder of the current connection; only tearing the connection
down and reconnecting re-probes the capability. -/
theorem feedback_timeout_disables_sync (c : BridgeClient) (np : Nat)
    (st fd : List Int) (env : PresentEnv)
    (he : c.enabled = true) (hfd : c.socket_fd = true)
    (hsync : c.feedback_sync_enabled = true)
    (h1 : 1 ≤ np) (h4 : np ≤ XWL_DMABUF_BRIDGE_MAX_PLANES)
    (hplanes : planes_invalid np st fd = false)
    (hsend : env.frame_send_ok = true) :
    ((wait_for_feedback
        { c with next_frame_id := (assign_frame_id c.next_frame_id).2 }
        (assign_frame_id c.next_frame_id).1 env.feedback_events).1 = none →
      (present_frame c np st fd env).accepted = true ∧
      (present_frame c np st fd env).client.feedback_sync_enabled = false) ∧
    (∀ fb, (wait_for_feedback
        { c with next_frame_id := (assign_frame_id c.next_frame_id).2 }
        (assign_frame_id c.next_frame_id).1 env.feedback_events).1 = some fb →
      Nat.land fb.flags XWL_DMABUF_BRIDGE_FEEDBACK_FAILED ≠ 0 →
      (present_frame c np st fd env).accepted = true) ∧
    (∀ (c2 : BridgeClient) (np2 : Nat) (st2 fd2 : List Int)
        (env2 : PresentEnv),
      c2.feedback_sync_enabled = false → c2.socket_fd = true →
      (present_frame c2 np2 st2 fd2 env2).client.feedback_sync_enabled
        = false) := by
  have hg : (!c.enabled || np = 0 || np > XWL_DMABUF_BRIDGE_MAX_PLANES)
      = false := by
    have hne : ¬(np = 0) := by omega
    have hgt : ¬(np > XWL_DMABUF_BRIDGE_MAX_PLANES) := by omega
    simp [he, hne, hgt]
  have hsp : send_packet { c with next_frame_id
        := (assign_frame_id c.next_frame_id).2 } env
      = (true, { c with next_frame_id
        := (assign_frame_id c.next_frame_id).2 }) := by
    simp [send_packet, ensure_connected, send_packet_connected, he, hfd,
          hsend]
  have hcond : (!c.feedback_sync_enabled) = false := by simp [hsync]
  refine ⟨?_, ?_, ?_⟩
  · intro hnone
    cases hw : wait_for_feedback
        { c with next_frame_id := (assign_frame_id c.next_frame_id).2 }
        (assign_frame_id c.next_frame_id).1 env.feedback_events with
    | mk res c4 =>
      rw [hw] at hnone
      simp at hnone
      subst hnone
      simp only [present_frame, hg, Bool.false_eq_true, if_false, hplanes,
                 hsp, hcond, hw]
      simp
  · intro fb hsome hflag
    cases hw : wait_for_feedback
        { c with next_frame_id := (assign_frame_id c.next_frame_id).2 }
        (assign_frame_id c.next_frame_id).1 env.feedback_events with
    | mk res c4 =>
      rw [hw] at hsome
      simp at hsome
      subst hsome
      simp only [present_frame, hg, Bool.false_eq_true, if_false, hplanes,
                 hsp, hcond, hw]
  · intro c2 np2 st2 fd2 env2 hsync2 hfd2
    simp only [present_frame]
    split
    · exact hsync2
    · cases hA2 : assign_frame_id c2.next_frame_id with
      | mk fid2 nid2 =>
        simp only [hA2]
        split
        · exact hsync2
        · by_cases he2 : c2.enabled = true
          · cases hok : env2.frame_send_ok with
            | true =>
              have hs2 : send_packet { c2 with next_frame_id := nid2 } env2
                  = (true, { c2 with next_frame_id := nid2 }) := by
                simp [send_packet, ensure_connected, send_packet_connected,
                      he2, hfd2, hok]
              rw [hs2]
              simp [hsync2]
            | false =>
              have hs2 : send_packet { c2 with next_frame_id := nid2 } env2
                  = (false, reset_connection
                      { c2 with next_frame_id := nid2 }) := by
                simp [send_packet, ensure_connected, send_packet_connected,
                      he2, hfd2, hok]
              rw [hs2]
              simp [reset_connection]
          · have he3 : c2.enabled = false := by
              cases h : c2.enabled
              · rfl
              · exact absurd h he2
            have hs2 : send_packet { c2 with next_frame_id := nid2 } env2
                = (false, { c2 with next_frame_id := nid2 }) := by
              simp [send_packet, ensure_connected, he3]
            rw [hs2]
            exact hsync2

/-- C4 witness: on a connected client with negotiated feedback sync, a
successful send followed by a feedback deadline with no packets yields an
accepted present with feedback sync disabled. -/
theorem feedback_timeout_disables_sync_witness :
    (present_frame ⟨true, true, false, true, true, 250, 5⟩ 1 [256] [7]
        ⟨true, true, [], true, []⟩).accepted = true ∧
    (present_frame ⟨true, true, false, true, true, 250, 5⟩ 1 [256] [7]
        ⟨true, true, [], true, []⟩).client.feedback_sync_enabled = false :=
  (feedback_timeout_disables_sync ⟨true, true, false, true, true, 250, 5⟩ 1
    [256] [7] ⟨true, true, [], true, []⟩ rfl rfl rfl (by decide) (by decide)
    (by decide) rfl).1 (by decide)

end MaliIcd
